import Mathlib

/-!
Verification of the heartDiseaseManagement repository.

A shallow embedding of the data model and core operations of the
heartDiseaseManagement web dashboard, together with theorems checking the
natural-language specification against the code.

Conventions of the embedding:
* The relational store (SQLite/PostgreSQL) is modelled as `Store`, a record of
  lists, one per table, kept in insertion order; SQL `INSERT` appends a row.
* Python integers are `Int` (or `Nat` where the source value is a parsed
  digit string), SQL `REAL` is `ℚ`, SQL `NULL`able columns are `Option`.
* Timestamps are abstract instants `Int`, measured in days, supplied by the
  caller as `now` (the source calls `datetime.now()` / `CURRENT_TIMESTAMP`);
  the SQL window `timestamp >= now - 7 days` becomes `now - 7 ≤ timestamp`.
* Database failures are modelled by `DbEnv`: `connect_ok = false` means
  `get_connection()` fails (returns `None`/raises), `exec_ok = false` means
  the SQL statement raises before the transaction commits.  A helper wrapped
  in `try/except` maps those failures to its documented fallback value.
* Python `re` patterns are compiled to explicit backtracking matchers with
  Python's leftmost-match, greedy/alternation-order semantics.
* `hashlib.sha256(...).hexdigest()` is embedded as a full executable SHA-256
  over `Nat` bytes (FIPS 180-4), applied to the UTF-8 encoding of the input.
-/

namespace HeartDisease

/-! ## String utilities (Python `str.lower`, substring test `in`) -/

/-- Python `str.lower()`, modelled character-wise (the repository only feeds
ASCII text through it). -/
def pyLower (s : String) : String := ⟨s.data.map Char.toLower⟩

/-- `leadsWith needle hay` : `needle` is an initial run of `hay`. -/
def leadsWith : List Char → List Char → Bool
  | [], _ => true
  | _ :: _, [] => false
  | c :: cs, d :: ds => c == d && leadsWith cs ds

/-- `listContains needle hay` : `needle` occurs contiguously in `hay`. -/
def listContains (needle : List Char) : List Char → Bool
  | [] => needle.isEmpty
  | c :: rest => leadsWith needle (c :: rest) || listContains needle rest

/-- Python's substring test `needle in hay`. -/
def strContains (hay needle : String) : Bool := listContains needle.data hay.data

/-! ## `classify_bp` (src/pages/3_BP_Monitoring.py, lines 24-55) -/

/-- The dictionary returned by `classify_bp`. -/
structure BPClass where
  category : String
  color : String
  advice : String
deriving DecidableEq

/-- `classify_bp(systolic, diastolic)` from src/pages/3_BP_Monitoring.py:
the exact `if/elif` cascade of the source, including the `or` in the
Stage-1 branch. -/
def classify_bp (systolic diastolic : Int) : BPClass :=
  if systolic < 120 ∧ diastolic < 80 then
    { category := "Normal", color := "success",
      advice := "Excellent! Your blood pressure is in the normal range. Keep up the healthy lifestyle!" }
  else if systolic < 130 ∧ diastolic < 80 then
    { category := "Elevated", color := "warning",
      advice := "Your BP is elevated. Focus on diet, exercise, and stress management." }
  else if systolic < 140 ∨ diastolic < 90 then
    { category := "High BP - Stage 1", color := "warning",
      advice := "Stage 1 hypertension detected. Consult your doctor about lifestyle changes and possible medication." }
  else if systolic < 180 ∧ diastolic < 120 then
    { category := "High BP - Stage 2", color := "error",
      advice := "Stage 2 hypertension. Medical attention is needed. Contact your healthcare provider." }
  else
    { category := "Hypertensive Crisis", color := "error",
      advice := "EMERGENCY! Seek immediate medical care. Call emergency services if experiencing symptoms." }

/-- Severity rank of the five category strings produced by `classify_bp`,
in the order Normal < Elevated < Stage 1 < Stage 2 < Crisis. -/
def severity (cat : String) : Nat :=
  if cat = "Normal" then 0
  else if cat = "Elevated" then 1
  else if cat = "High BP - Stage 1" then 2
  else if cat = "High BP - Stage 2" then 3
  else 4

/-! ## The relational store (tables created in `init_db`, src/utils/database.py) -/

/-- A row of the `users` table (`id` autoincrement, `username UNIQUE`,
`password`). -/
structure UserRow where
  id : Nat
  username : String
  password : String
deriving DecidableEq

/-- A row of the `blood_pressure` table. -/
structure BPRow where
  user_id : String
  systolic : Int
  diastolic : Int
  heart_rate : Option Int
  timestamp : Int
  notes : String
deriving DecidableEq

/-- A row of the `activities` table. -/
structure ActivityRow where
  user_id : String
  activity_type : String
  duration : Int
  intensity : String
  calories : Int
  timestamp : Int
  notes : String
deriving DecidableEq

/-- A row of the `cholesterol_readings` table. -/
structure CholRow where
  user_id : String
  total_cholesterol : Option Int
  ldl : Option Int
  hdl : Option Int
  triglycerides : Option Int
  timestamp : Int
  notes : String
deriving DecidableEq

/-- A row of the `chat_history` table. -/
structure ChatRow where
  user_id : String
  role : String
  message : String
  timestamp : Int
deriving DecidableEq

/-- A row of the `predictions_history` table. -/
structure PredRow where
  user_id : String
  age : Int
  cholesterol : Int
  resting_bp_s : Int
  predicted_target : Int
  probability : ℚ
  timestamp : Int
deriving DecidableEq

/-- The whole relational store, each table in insertion order. -/
structure Store where
  users : List UserRow
  blood_pressure : List BPRow
  activities : List ActivityRow
  cholesterol_readings : List CholRow
  chat_history : List ChatRow
  predictions_history : List PredRow
deriving DecidableEq

def emptyStore : Store := ⟨[], [], [], [], [], []⟩

/-- Failure model for a database call: `connect_ok = false` means
`get_connection()` fails, `exec_ok = false` means the SQL statement raises
before the transaction commits. -/
structure DbEnv where
  connect_ok : Bool
  exec_ok : Bool
deriving DecidableEq

/-- Both connection and execution succeed. -/
def DbEnv.ok (e : DbEnv) : Bool := e.connect_ok && e.exec_ok

/-- The fully working environment. -/
def dbOk : DbEnv := ⟨true, true⟩

/-- `storeExtends s t` : every table of `s` is an initial run of the
corresponding table of `t`, so every record present in `s` is still present,
unchanged and in place, in `t`. -/
def storeExtends (s t : Store) : Prop :=
  (∃ a, t.users = s.users ++ a) ∧
  (∃ a, t.blood_pressure = s.blood_pressure ++ a) ∧
  (∃ a, t.activities = s.activities ++ a) ∧
  (∃ a, t.cholesterol_readings = s.cholesterol_readings ++ a) ∧
  (∃ a, t.chat_history = s.chat_history ++ a) ∧
  (∃ a, t.predictions_history = s.predictions_history ++ a)

/-! ## Sorting and aggregation used by the SQL reads -/

/-- Insert into a list sorted by ascending integer key (stable). -/
def insertByKey (key : α → Int) (x : α) : List α → List α
  | [] => [x]
  | y :: ys => if key x < key y then x :: y :: ys else y :: insertByKey key x ys

/-- Stable insertion sort by ascending integer key; the model of SQL
`ORDER BY`. -/
def sortByKey (key : α → Int) : List α → List α
  | [] => []
  | x :: xs => insertByKey key x (sortByKey key xs)

/-- SQL `AVG` over a column: `NULL` (`none`) on no rows. -/
def avgQ (l : List Int) : Option ℚ :=
  match l with
  | [] => none
  | _ => some ((l.sum : ℚ) / (l.length : ℚ))

namespace DB

/-! ## src/utils/database.py -/

/-- `verify_user(username, password)` (src/utils/database.py, lines 109-123):
one parameterized `SELECT id FROM users WHERE username = ? AND password = ?`
against the supplied password itself (no hash is applied in this module);
`(False, None)` when no row matches or on any exception. -/
def verify_user (env : DbEnv) (username password : String) (st : Store) :
    Bool × Option Nat :=
  if env.ok then
    match st.users.find? (fun r => r.username == username && r.password == password) with
    | some r => (true, some r.id)
    | none => (false, none)
  else (false, none)

/-- The autoincrement id handed to the next inserted `users` row. -/
def nextUserId (st : Store) : Nat := st.users.foldr (fun r m => max r.id m) 0 + 1

/-- `create_user(username, password)` (src/utils/database.py, lines 125-140).
The `UNIQUE` constraint on `username` raises `sqlite3.IntegrityError` on a
duplicate, which the source maps to `(False, "Username already exists")`;
other exceptions (modelled by `DbEnv`) are mapped to `(False, str(e))`,
rendered here as the fixed string `"database error"`. -/
def create_user (env : DbEnv) (username password : String) (st : Store) :
    (Bool × (Nat ⊕ String)) × Store :=
  if env.connect_ok then
    if st.users.any (fun r => r.username == username) then
      ((false, Sum.inr "Username already exists"), st)
    else if env.exec_ok then
      ((true, Sum.inl (nextUserId st)),
        { st with users := st.users ++ [⟨nextUserId st, username, password⟩] })
    else ((false, Sum.inr "database error"), st)
  else ((false, Sum.inr "database error"), st)

/-- `save_blood_pressure` (src/utils/database.py, lines 142-177): inserts one
row, returns `True`; `False` on connection failure or exception. -/
def save_blood_pressure (env : DbEnv) (user_id : Nat) (systolic diastolic : Int)
    (heart_rate : Option Int) (notes : String) (now : Int) (st : Store) :
    Bool × Store :=
  if env.connect_ok then
    if env.exec_ok then
      (true, { st with blood_pressure := st.blood_pressure ++
        [{ user_id := toString user_id, systolic := systolic, diastolic := diastolic,
           heart_rate := heart_rate, timestamp := now, notes := notes }] })
    else (false, st)
  else (false, st)

/-- The `mult.get(intensity, 5)` lookup in `save_activity`:
`{'Light': 3, 'Moderate': 5, 'Vigorous': 8}` with default 5. -/
def intensityMult (intensity : String) : Int :=
  if intensity = "Light" then 3
  else if intensity = "Moderate" then 5
  else if intensity = "Vigorous" then 8
  else 5

/-- `save_activity` (src/utils/database.py, lines 179-204): when
`calories is None` it is computed as `duration * mult.get(intensity, 5)`,
then one row is inserted. -/
def save_activity (env : DbEnv) (user_id : Nat) (activity_type : String)
    (duration : Int) (intensity : String) (calories : Option Int)
    (notes : String) (now : Int) (st : Store) : Bool × Store :=
  let cal := match calories with
    | none => duration * intensityMult intensity
    | some c => c
  if env.connect_ok then
    if env.exec_ok then
      (true, { st with activities := st.activities ++
        [{ user_id := toString user_id, activity_type := activity_type,
           duration := duration, intensity := intensity, calories := cal,
           timestamp := now, notes := notes }] })
    else (false, st)
  else (false, st)

/-- `save_cholesterol` (src/utils/database.py, lines 206-236). -/
def save_cholesterol (env : DbEnv) (user_id : Nat)
    (total_chol ldl hdl triglycerides : Option Int) (notes : String)
    (now : Int) (st : Store) : Bool × Store :=
  if env.connect_ok then
    if env.exec_ok then
      (true, { st with cholesterol_readings := st.cholesterol_readings ++
        [{ user_id := toString user_id, total_cholesterol := total_chol,
           ldl := ldl, hdl := hdl, triglycerides := triglycerides,
           timestamp := now, notes := notes }] })
    else (false, st)
  else (false, st)

/-- `save_chat_message` (src/utils/database.py, lines 238-257): inserts one
row; the Python function has no `return`, so it returns `None` (here `Unit`)
on every path, exceptions included. -/
def save_chat_message (env : DbEnv) (user_id : Nat) (role message : String)
    (now : Int) (st : Store) : Unit × Store :=
  if env.connect_ok then
    if env.exec_ok then
      ((), { st with chat_history := st.chat_history ++
        [{ user_id := toString user_id, role := role, message := message,
           timestamp := now }] })
    else ((), st)
  else ((), st)

/-- `log_prediction_to_db` (src/utils/database.py, lines 327-348). -/
def log_prediction_to_db (env : DbEnv) (user_id : Nat) (age chol bp : Int)
    (target : Int) (prob : ℚ) (now : Int) (st : Store) : Bool × Store :=
  if env.connect_ok then
    if env.exec_ok then
      (true, { st with predictions_history := st.predictions_history ++
        [{ user_id := toString user_id, age := age, cholesterol := chol,
           resting_bp_s := bp, predicted_target := target, probability := prob,
           timestamp := now }] })
    else (false, st)
  else (false, st)

/-- `get_weekly_bp_summary` (src/utils/database.py, lines 259-284):
`SELECT AVG(systolic), AVG(diastolic) FROM blood_pressure WHERE user_id = ?
AND timestamp >= now - 7 days`; the empty `DataFrame` returned on exception
is `none`, a normal result is the single aggregate row. -/
def get_weekly_bp_summary (env : DbEnv) (user_id : Nat) (now : Int)
    (st : Store) : Option (Option ℚ × Option ℚ) :=
  if env.ok then
    let rows := st.blood_pressure.filter
      (fun r => r.user_id == toString user_id && decide (now - 7 ≤ r.timestamp))
    some (avgQ (rows.map (·.systolic)), avgQ (rows.map (·.diastolic)))
  else none

/-- `load_chat_history` (src/utils/database.py, lines 286-303):
`SELECT role, message FROM chat_history WHERE user_id = ? ORDER BY timestamp
ASC LIMIT ?`; empty `DataFrame` (here `[]`) on exception. -/
def load_chat_history (env : DbEnv) (user_id : Nat) (lim : Nat) (st : Store) :
    List (String × String) :=
  if env.ok then
    ((sortByKey (·.timestamp)
        (st.chat_history.filter (fun r => r.user_id == toString user_id))).map
      (fun r => (r.role, r.message))).take lim
  else []

/-- `get_prediction_history` (src/utils/database.py, lines 305-325):
`SELECT predicted_target, probability, timestamp FROM predictions_history
WHERE user_id = ? ORDER BY timestamp DESC`, returned as a list of tuples;
`[]` on exception (and on an empty result). -/
def get_prediction_history (env : DbEnv) (user_id : Nat) (st : Store) :
    List (Int × ℚ × Int) :=
  if env.ok then
    (sortByKey (fun r => -r.timestamp)
        (st.predictions_history.filter (fun r => r.user_id == toString user_id))).map
      (fun r => (r.predicted_target, r.probability, r.timestamp))
  else []

end DB

namespace RA

/-! ## src/pages/2_Risk_Assessment.py -/

/-- `get_recent_logs(user_id)` (src/pages/2_Risk_Assessment.py, lines 60-70):
`SELECT timestamp, age, resting_bp_s, cholesterol, predicted_target,
probability FROM predictions_history WHERE user_id = %s ORDER BY timestamp
DESC LIMIT 5`; empty `DataFrame` (here `[]`) on exception. -/
def get_recent_logs (env : DbEnv) (user_id : Nat) (st : Store) :
    List (Int × Int × Int × Int × Int × ℚ) :=
  if env.ok then
    (((sortByKey (fun r => -r.timestamp)
        (st.predictions_history.filter (fun r => r.user_id == toString user_id))).map
      (fun r => (r.timestamp, r.age, r.resting_bp_s, r.cholesterol,
        r.predicted_target, r.probability))).take 5)
  else []

end RA

/-! ## SHA-256 (the `hashlib.sha256(...).hexdigest()` call of
src/utils/database_new.py), FIPS 180-4 over `Nat` bytes -/

/-- Rotate a 32-bit word right by `n`. -/
def rotr32 (n x : Nat) : Nat := ((x >>> n) ||| (x <<< (32 - n))) % 4294967296

def bsig0 (x : Nat) : Nat := rotr32 2 x ^^^ rotr32 13 x ^^^ rotr32 22 x

def bsig1 (x : Nat) : Nat := rotr32 6 x ^^^ rotr32 11 x ^^^ rotr32 25 x

def ssig0 (x : Nat) : Nat := rotr32 7 x ^^^ rotr32 18 x ^^^ (x >>> 3)

def ssig1 (x : Nat) : Nat := rotr32 17 x ^^^ rotr32 19 x ^^^ (x >>> 10)

/-- The 64 SHA-256 round constants of FIPS 180-4 (decimal rendering). -/
def sha256K : List Nat :=
  [1116352408, 1899447441, 3049323471, 3921009573, 961987163, 1508970993,
   2453635748, 2870763221, 3624381080, 310598401, 607225278, 1426881987,
   1925078388, 2162078206, 2614888103, 3248222580, 3835390401, 4022224774,
   264347078, 604807628, 770255983, 1249150122, 1555081692, 1996064986,
   2554220882, 2821834349, 2952996808, 3210313671, 3336571891, 3584528711,
   113926993, 338241895, 666307205, 773529912, 1294757372, 1396182291,
   1695183700, 1986661051, 2177026350, 2456956037, 2730485921, 2820302411,
   3259730800, 3345764771, 3516065817, 3600352804, 4094571909, 275423344,
   430227734, 506948616, 659060556, 883997877, 958139571, 1322822218,
   1537002063, 1747873779, 1955562222, 2024104815, 2227730452, 2361852424,
   2428436474, 2756734187, 3204031479, 3329325298]

/-- `v` as `n` big-endian bytes. -/
def toBytesBE (n v : Nat) : List Nat :=
  (List.range n).map (fun i => (v >>> (8 * (n - 1 - i))) % 256)

/-- SHA-256 message padding: append `0x80`, zero bytes, and the 64-bit
big-endian bit length, to a multiple of 64 bytes. -/
def sha256Pad (msg : List Nat) : List Nat :=
  msg ++ [0x80] ++ List.replicate ((55 + 64 - msg.length % 64) % 64) 0
      ++ toBytesBE 8 (8 * msg.length)

/-- Group bytes four at a time into big-endian 32-bit words. -/
def bytesToWords : List Nat → List Nat
  | b0 :: b1 :: b2 :: b3 :: rest =>
    (((b0 * 256 + b1) * 256 + b2) * 256 + b3) :: bytesToWords rest
  | _ => []

/-- Extend the 16 block words to the 64-entry message schedule. -/
def sha256Extend (ws : List Nat) : List Nat :=
  (List.range 48).foldl (fun w _ =>
    let i := w.length
    w ++ [(ssig1 (w.getD (i - 2) 0) + w.getD (i - 7) 0 +
           ssig0 (w.getD (i - 15) 0) + w.getD (i - 16) 0) % 4294967296]) ws

/-- The eight 32-bit working variables. -/
structure Hash8 where
  a : Nat
  b : Nat
  c : Nat
  d : Nat
  e : Nat
  f : Nat
  g : Nat
  h : Nat
deriving DecidableEq

/-- One SHA-256 round with constant/schedule pair `kw`. -/
def sha256Round (s : Hash8) (kw : Nat × Nat) : Hash8 :=
  let ch := (s.e &&& s.f) ^^^ ((s.e ^^^ 4294967295) &&& s.g)
  let maj := (s.a &&& s.b) ^^^ (s.a &&& s.c) ^^^ (s.b &&& s.c)
  let t1 := (s.h + bsig1 s.e + ch + kw.1 + kw.2) % 4294967296
  let t2 := (bsig0 s.a + maj) % 4294967296
  { a := (t1 + t2) % 4294967296, b := s.a, c := s.b, d := s.c,
    e := (s.d + t1) % 4294967296, f := s.e, g := s.f, h := s.g }

/-- Compress one 64-byte block into the chaining state. -/
def sha256Block (s : Hash8) (block : List Nat) : Hash8 :=
  let t := (sha256K.zip (sha256Extend (bytesToWords block))).foldl sha256Round s
  { a := (s.a + t.a) % 4294967296, b := (s.b + t.b) % 4294967296,
    c := (s.c + t.c) % 4294967296, d := (s.d + t.d) % 4294967296,
    e := (s.e + t.e) % 4294967296, f := (s.f + t.f) % 4294967296,
    g := (s.g + t.g) % 4294967296, h := (s.h + t.h) % 4294967296 }

/-- Split a byte list into 64-byte chunks (structural recursion on a fuel
bound, so the definition evaluates inside the kernel; `fuel = l.length`
always suffices). -/
def chunks64Go : Nat → List Nat → List (List Nat)
  | _, [] => []
  | 0, _ :: _ => []
  | fuel + 1, c :: rest => (c :: rest).take 64 :: chunks64Go fuel ((c :: rest).drop 64)

/-- Split a byte list into 64-byte chunks. -/
def chunks64 (l : List Nat) : List (List Nat) := chunks64Go l.length l

/-- The SHA-256 initial hash value of FIPS 180-4 (decimal rendering). -/
def sha256Init : Hash8 :=
  ⟨1779033703, 3144134277, 1013904242, 2773480762,
   1359893119, 2600822924, 528734635, 1541459225⟩

/-- SHA-256 digest (32 bytes) of a byte message. -/
def sha256Bytes (msg : List Nat) : List Nat :=
  let fin := (chunks64 (sha256Pad msg)).foldl sha256Block sha256Init
  toBytesBE 4 fin.a ++ toBytesBE 4 fin.b ++ toBytesBE 4 fin.c ++
  toBytesBE 4 fin.d ++ toBytesBE 4 fin.e ++ toBytesBE 4 fin.f ++
  toBytesBE 4 fin.g ++ toBytesBE 4 fin.h

/-- Lowercase hex digit. -/
def hexDigit (n : Nat) : Char :=
  if n < 10 then Char.ofNat (48 + n) else Char.ofNat (87 + n)

/-- Lowercase hex rendering of a byte list (Python `hexdigest`). -/
def bytesToHex (bs : List Nat) : String :=
  ⟨(bs.map (fun b => [hexDigit (b / 16), hexDigit (b % 16)])).flatten⟩

/-- UTF-8 encoding of one character (Python `str.encode`). -/
def utf8Char (c : Char) : List Nat :=
  let n := c.toNat
  if n < 128 then [n]
  else if n < 2048 then [192 + n / 64, 128 + n % 64]
  else if n < 65536 then [224 + n / 4096, 128 + (n / 64) % 64, 128 + n % 64]
  else [240 + n / 262144, 128 + (n / 4096) % 64, 128 + (n / 64) % 64, 128 + n % 64]

/-- UTF-8 encoding of a string. -/
def utf8Encode (s : String) : List Nat := (s.data.map utf8Char).flatten

/-- `hash_password(password)` (src/utils/database_new.py, lines 16-17):
`hashlib.sha256(str.encode(password)).hexdigest()`. -/
def hash_password (password : String) : String :=
  bytesToHex (sha256Bytes (utf8Encode password))

namespace DBNew

/-! ## src/utils/database_new.py -/

/-- `verify_user(username, password)` (src/utils/database_new.py, lines
63-74): one parameterized `SELECT id FROM users WHERE username = %s AND
password = %s` against `hash_password(password)`; `(False, None)` when no
row matches or the connection fails.  (This function has no `try/except`:
an exception raised by the query itself would propagate and is not
modelled.) -/
def verify_user (conn_ok : Bool) (username password : String) (st : Store) :
    Bool × Option Nat :=
  if conn_ok then
    match st.users.find?
        (fun r => r.username == username && r.password == hash_password password) with
    | some r => (true, some r.id)
    | none => (false, none)
  else (false, none)

end DBNew

/-! ## The `re` patterns of src/pages/5_Health_Assistant.py

Python `re.search` scans start positions left to right and, at each
position, matches with backtracking: `\d{2,3}` tries three digits before
two, `(?:/|over)` tries `/` before `over`, and `(min|minute)` tries `min`
first (which subsumes `minute`).  `\s*` is followed by a literal that can
never match a whitespace character, so the greedy run needs no backtracking.
-/

/-- Python `\s` on the ASCII range. -/
def isPySpace (c : Char) : Bool :=
  c == ' ' || c == '\t' || c == '\n' || c == '\r' || c == '\x0b' || c == '\x0c'

/-- Numeric value of a digit run (Python `int` of the matched group). -/
def digitsValue (ds : List Char) : Nat :=
  ds.foldl (fun acc c => acc * 10 + (c.toNat - 48)) 0

/-- Match exactly `k` leading digits, returning their value and the rest. -/
def takeDigits (k : Nat) (cs : List Char) : Option (Nat × List Char) :=
  let ds := cs.take k
  if ds.length == k && ds.all Char.isDigit then some (digitsValue ds, cs.drop k)
  else none

/-- Consume the greedy `\s*`. -/
def skipSpaces (cs : List Char) : List Char := cs.dropWhile isPySpace

/-- Match the alternation `(?:/|over)` at the front. -/
def matchSep : List Char → Option (List Char)
  | '/' :: rest => some rest
  | 'o' :: 'v' :: 'e' :: 'r' :: rest => some rest
  | _ => none

/-- Match `(\d{2,3})\s*(?:/|over)\s*(\d{2,3})` at the front (three digits
tried before two, as the greedy bound does). -/
def matchBPAt (cs : List Char) : Option (Nat × Nat) :=
  let second := fun (r4 : List Char) =>
    match takeDigits 3 r4 with
    | some (n2, _) => some n2
    | none =>
      match takeDigits 2 r4 with
      | some (n2, _) => some n2
      | none => none
  let attempt := fun (k : Nat) =>
    match takeDigits k cs with
    | none => none
    | some (n1, r1) =>
      match matchSep (skipSpaces r1) with
      | none => none
      | some r3 =>
        match second (skipSpaces r3) with
        | some n2 => some (n1, n2)
        | none => none
  match attempt 3 with
  | some r => some r
  | none => attempt 2

/-- `re.search(r'(\d{2,3})\s*(?:/|over)\s*(\d{2,3})', ...)`: leftmost match,
returning the two captured numbers. -/
def searchBP : List Char → Option (Nat × Nat)
  | [] => none
  | c :: rest =>
    match matchBPAt (c :: rest) with
    | some r => some r
    | none => searchBP rest

/-- Match `(\d+)\s*(min|minute)` at the front: a maximal digit run (giving
digits back cannot help, since `\s*` is then followed by `m` but a digit
follows), spaces, then the literal `min`. -/
def matchDurationAt (cs : List Char) : Option Nat :=
  let ds := cs.takeWhile Char.isDigit
  if ds.isEmpty then none
  else
    match skipSpaces (cs.dropWhile Char.isDigit) with
    | 'm' :: 'i' :: 'n' :: _ => some (digitsValue ds)
    | _ => none

/-- `re.search(r'(\d+)\s*(min|minute)', ...)`: leftmost match, returning the
captured duration. -/
def searchDuration : List Char → Option Nat
  | [] => none
  | c :: rest =>
    match matchDurationAt (c :: rest) with
    | some n => some n
    | none => searchDuration rest

/-- Worker for `findNums`: the running maximal digit run, if any. -/
def findNumsAux : List Char → Option Nat → List Nat
  | [], none => []
  | [], some n => [n]
  | c :: rest, none =>
    if c.isDigit then findNumsAux rest (some (c.toNat - 48))
    else findNumsAux rest none
  | c :: rest, some n =>
    if c.isDigit then findNumsAux rest (some (n * 10 + (c.toNat - 48)))
    else n :: findNumsAux rest none

/-- `re.findall(r'\d+', ...)` with each maximal digit run read by `int`. -/
def findNums (cs : List Char) : List Nat := findNumsAux cs none

namespace HA

/-! ## src/pages/5_Health_Assistant.py -/

/-- `save_blood_pressure` (src/pages/5_Health_Assistant.py, lines 38-49). -/
def save_blood_pressure (env : DbEnv) (user_id : Nat) (systolic diastolic : Int)
    (heart_rate : Option Int) (notes : String) (now : Int) (st : Store) :
    Bool × Store :=
  if env.connect_ok then
    if env.exec_ok then
      (true, { st with blood_pressure := st.blood_pressure ++
        [{ user_id := toString user_id, systolic := systolic, diastolic := diastolic,
           heart_rate := heart_rate, timestamp := now, notes := notes }] })
    else (false, st)
  else (false, st)

/-- `save_activity` (src/pages/5_Health_Assistant.py, lines 51-65); the same
`mult.get(intensity, 5)` calorie rule as the database-layer version. -/
def save_activity (env : DbEnv) (user_id : Nat) (activity_type : String)
    (duration : Int) (intensity : String) (calories : Option Int)
    (notes : String) (now : Int) (st : Store) : Bool × Store :=
  let cal := match calories with
    | none => duration * DB.intensityMult intensity
    | some c => c
  if env.connect_ok then
    if env.exec_ok then
      (true, { st with activities := st.activities ++
        [{ user_id := toString user_id, activity_type := activity_type,
           duration := duration, intensity := intensity, calories := cal,
           timestamp := now, notes := notes }] })
    else (false, st)
  else (false, st)

/-- `save_cholesterol` (src/pages/5_Health_Assistant.py, lines 67-78). -/
def save_cholesterol (env : DbEnv) (user_id : Nat)
    (total_chol ldl hdl triglycerides : Option Int) (notes : String)
    (now : Int) (st : Store) : Bool × Store :=
  if env.connect_ok then
    if env.exec_ok then
      (true, { st with cholesterol_readings := st.cholesterol_readings ++
        [{ user_id := toString user_id, total_cholesterol := total_chol,
           ldl := ldl, hdl := hdl, triglycerides := triglycerides,
           timestamp := now, notes := notes }] })
    else (false, st)
  else (false, st)

/-- `process_blood_pressure(user_input, user_id)` (src/pages/5_Health_Assistant.py,
lines 91-97). -/
def process_blood_pressure (env : DbEnv) (now : Int) (user_input : String)
    (user_id : Nat) (st : Store) : String × Store :=
  match searchBP (pyLower user_input).data with
  | some (sys, dia) =>
    let res := save_blood_pressure env user_id (sys : Int) (dia : Int) none "" now st
    if res.1 then
      (s!"Logged BP: **{sys}/{dia} mmHg**. Great job tracking your levels!", res.2)
    else ("Could not parse BP. Try: 'My BP is 120/80'", res.2)
  | none => ("Could not parse BP. Try: 'My BP is 120/80'", st)

/-- `process_activity(user_input, user_id)` (src/pages/5_Health_Assistant.py,
lines 99-104): a failed duration match defaults `duration` to 30 and the
record is logged anyway. -/
def process_activity (env : DbEnv) (now : Int) (user_input : String)
    (user_id : Nat) (st : Store) : String × Store :=
  let duration : Nat := (searchDuration (pyLower user_input).data).getD 30
  let res := save_activity env user_id "Exercise" (duration : Int) "Moderate" none "" now st
  if res.1 then (s!"Logged **{duration} mins** of activity! Keep moving!", res.2)
  else ("Error logging activity.", res.2)

/-- `process_cholesterol(user_input, user_id)` (src/pages/5_Health_Assistant.py,
lines 106-116); the `save_cholesterol` result is ignored. -/
def process_cholesterol (env : DbEnv) (now : Int) (user_input : String)
    (user_id : Nat) (st : Store) : String × Store :=
  match findNums user_input.data with
  | [] => ("Please provide a number for your cholesterol.", st)
  | v :: _ =>
    if strContains (pyLower user_input) "ldl" then
      (s!"Logged LDL Cholesterol: **{v} mg/dL**.",
        (save_cholesterol env user_id none (some (v : Int)) none none "" now st).2)
    else
      (s!"Logged Total Cholesterol: **{v} mg/dL**.",
        (save_cholesterol env user_id (some (v : Int)) none none none "" now st).2)

/-- Truthiness of the pandas scalar `df['s'].iloc[0]` in
`process_status_check`: a SQL `NULL` average arrives as float `NaN`, which
is truthy in Python; a number is falsy exactly when zero. -/
def truthyAvg : Option ℚ → Bool
  | none => true
  | some q => !(q == 0)

/-- The `:.0f` rendering of the average, modelled as rounding (`NaN` prints
as `nan`). -/
def formatAvg : Option ℚ → String
  | none => "nan"
  | some q => toString (round q)

/-- `process_status_check(user_id)` (src/pages/5_Health_Assistant.py, lines
118-131); the exception text `f"Error fetching status: {e}"` is rendered
with a fixed description. -/
def process_status_check (env : DbEnv) (now : Int) (user_id : Nat)
    (st : Store) : String :=
  if env.ok then
    let rows := st.blood_pressure.filter
      (fun r => r.user_id == toString user_id && decide (now - 7 ≤ r.timestamp))
    let s := avgQ (rows.map (·.systolic))
    let d := avgQ (rows.map (·.diastolic))
    if truthyAvg s then
      s!"**Weekly Summary:** Your average BP is **{formatAvg s}/{formatAvg d} mmHg**."
    else "No data found for the last 7 days. Start logging to see your summary!"
  else "Error fetching status: database error"

def activityWords : List String := ["walk", "run", "swim", "min", "exercise", "activity"]

def cholWords : List String := ["cholesterol", "ldl", "hdl"]

def statusWords : List String := ["status", "how", "summary", "doing", "report"]

/-- The first branch condition of `process_user_input`:
`'bp' in inp or '/' in inp or 'pressure' in inp`. -/
def hasBPKeyword (inp : String) : Bool :=
  strContains inp "bp" || strContains inp "/" || strContains inp "pressure"

/-- `any(word in inp for word in ws)`. -/
def hasAnyWord (inp : String) (ws : List String) : Bool :=
  ws.any (fun w => strContains inp w)

/-- `process_user_input(user_input, user_id)` (src/pages/5_Health_Assistant.py,
lines 133-144): first-match keyword routing over the lowered input, in the
order BP, activity, cholesterol, status, fallback. -/
def process_user_input (env : DbEnv) (now : Int) (user_input : String)
    (user_id : Nat) (st : Store) : String × Store :=
  let inp := pyLower user_input
  if hasBPKeyword inp then process_blood_pressure env now user_input user_id st
  else if hasAnyWord inp activityWords then process_activity env now user_input user_id st
  else if hasAnyWord inp cholWords then process_cholesterol env now user_input user_id st
  else if hasAnyWord inp statusWords then (process_status_check env now user_id st, st)
  else ("I can log your BP (120/80), activities (walked 20 min), or cholesterol. How can I help?", st)

end HA

/-! ## Concrete stores used by counterexamples and witnesses -/

/-- A store whose single user registered through the hashing path of
src/utils/database_new.py: the stored password column is
`hash_password("secret1")`. -/
def cexStore : Store :=
  { emptyStore with users := [⟨1, "alice", hash_password "secret1"⟩] }

/-- A store holding records of user `"2"` only. -/
def foreignStore : Store :=
  { emptyStore with
    blood_pressure := [⟨"2", 150, 95, none, 0, ""⟩],
    chat_history := [⟨"2", "user", "hi", 0⟩],
    predictions_history := [⟨"2", 50, 200, 130, 1, 0, 0⟩] }

/-- A store with one registered user named `"bob"`. -/
def oneUserStore : Store := { emptyStore with users := [⟨1, "bob", "pw"⟩] }

/-! ## Helper lemmas -/

theorem storeExtends_refl (s : Store) : storeExtends s s :=
  ⟨⟨[], by simp⟩, ⟨[], by simp⟩, ⟨[], by simp⟩, ⟨[], by simp⟩, ⟨[], by simp⟩, ⟨[], by simp⟩⟩

theorem storeExtends_users (s : Store) (a : List UserRow) :
    storeExtends s { s with users := s.users ++ a } :=
  ⟨⟨a, rfl⟩, ⟨[], by simp⟩, ⟨[], by simp⟩, ⟨[], by simp⟩, ⟨[], by simp⟩, ⟨[], by simp⟩⟩

theorem storeExtends_bp (s : Store) (a : List BPRow) :
    storeExtends s { s with blood_pressure := s.blood_pressure ++ a } :=
  ⟨⟨[], by simp⟩, ⟨a, rfl⟩, ⟨[], by simp⟩, ⟨[], by simp⟩, ⟨[], by simp⟩, ⟨[], by simp⟩⟩

theorem storeExtends_act (s : Store) (a : List ActivityRow) :
    storeExtends s { s with activities := s.activities ++ a } :=
  ⟨⟨[], by simp⟩, ⟨[], by simp⟩, ⟨a, rfl⟩, ⟨[], by simp⟩, ⟨[], by simp⟩, ⟨[], by simp⟩⟩

theorem storeExtends_chol (s : Store) (a : List CholRow) :
    storeExtends s { s with cholesterol_readings := s.cholesterol_readings ++ a } :=
  ⟨⟨[], by simp⟩, ⟨[], by simp⟩, ⟨[], by simp⟩, ⟨a, rfl⟩, ⟨[], by simp⟩, ⟨[], by simp⟩⟩

theorem storeExtends_chat (s : Store) (a : List ChatRow) :
    storeExtends s { s with chat_history := s.chat_history ++ a } :=
  ⟨⟨[], by simp⟩, ⟨[], by simp⟩, ⟨[], by simp⟩, ⟨[], by simp⟩, ⟨a, rfl⟩, ⟨[], by simp⟩⟩

theorem storeExtends_pred (s : Store) (a : List PredRow) :
    storeExtends s { s with predictions_history := s.predictions_history ++ a } :=
  ⟨⟨[], by simp⟩, ⟨[], by simp⟩, ⟨[], by simp⟩, ⟨[], by simp⟩, ⟨[], by simp⟩, ⟨a, rfl⟩⟩

theorem filter_and_eq (p q : α → Bool) (l : List α) :
    l.filter (fun a => p a && q a) = (l.filter p).filter q := by
  induction l with
  | nil => rfl
  | cons x xs ih =>
    by_cases hp : p x <;> by_cases hq : q x <;>
      simp [List.filter, hp, hq, ih]

/-! ## Claim theorems -/

/-- C1: `classify_bp` does NOT implement the five AHA staging bands the
claim and the function's own docstring describe.  Because the Stage-1
branch tests `systolic < 140 or diastolic < 90`, a reading with
`systolic >= 180` (or `diastolic >= 120`) whose other value is below the
Stage-2 threshold is classified "High BP - Stage 1": at (200, 85) and
(100, 125) the claim requires "Hypertensive Crisis" but the code returns
"High BP - Stage 1". -/
theorem classify_bp_code_bug :
    (classify_bp 200 85).category = "High BP - Stage 1" ∧
    (classify_bp 100 125).category = "High BP - Stage 1" ∧
    (classify_bp 200 85).category ≠ "Hypertensive Crisis" := by decide

/-- C5: the classification of `classify_bp` is monotone in severity: raising
neither reading can lower the returned category in the order
Normal < Elevated < Stage 1 < Stage 2 < Crisis. -/
theorem classify_bp_monotone (s₁ d₁ s₂ d₂ : Int) (hs : s₁ ≤ s₂) (hd : d₁ ≤ d₂) :
    severity (classify_bp s₁ d₁).category ≤ severity (classify_bp s₂ d₂).category := by
  unfold classify_bp
  split_ifs <;> first | decide | omega

/-- Witness for C5 at the readings (118, 75) and (185, 95). -/
theorem classify_bp_monotone_witness :
    (118 : Int) ≤ 185 ∧ (75 : Int) ≤ 95 ∧
    severity (classify_bp 118 75).category ≤ severity (classify_bp 185 95).category :=
  ⟨by decide, by decide, classify_bp_monotone 118 75 185 95 (by decide) (by decide)⟩

/-- C2 counterexample: `verify_user` of src/utils/database.py (the module
`app.py` imports) compares the stored password column with the SUPPLIED
password, not with its hash: on a store whose row for "alice" holds
`hash_password("secret1")` - exactly the row the claim says must make
`verify_user("alice", "secret1")` succeed - it returns `(False, None)`. -/
theorem verify_user_unhashed_cex :
    cexStore.users = [⟨1, "alice", hash_password "secret1"⟩] ∧
    DB.verify_user dbOk "alice" "secret1" cexStore = (false, none) ∧
    DB.verify_user dbOk "alice" "secret1" cexStore ≠ (true, some 1) :=
  ⟨rfl, by decide, by decide⟩

/-- C2 (amended): each `verify_user` is a single parameterized lookup that
succeeds, returning the matching row's id, if and only if a users row has
the given username and the compared password column value - which is
`hash_password(password)` (SHA-256 hexdigest) in src/utils/database_new.py
but the raw supplied password in src/utils/database.py - and returns
`(False, None)` otherwise. -/
theorem verify_user_lookup_spec (st : Store) (u p : String) :
    ((DBNew.verify_user true u p st).1 = true ↔
      ∃ r ∈ st.users, r.username = u ∧ r.password = hash_password p) ∧
    (∀ i, DBNew.verify_user true u p st = (true, some i) →
      ∃ r ∈ st.users, r.id = i ∧ r.username = u ∧ r.password = hash_password p) ∧
    ((DBNew.verify_user true u p st).1 = false →
      DBNew.verify_user true u p st = (false, none)) ∧
    ((DB.verify_user dbOk u p st).1 = true ↔
      ∃ r ∈ st.users, r.username = u ∧ r.password = p) ∧
    (∀ i, DB.verify_user dbOk u p st = (true, some i) →
      ∃ r ∈ st.users, r.id = i ∧ r.username = u ∧ r.password = p) ∧
    ((DB.verify_user dbOk u p st).1 = false →
      DB.verify_user dbOk u p st = (false, none)) := by
  have key : ∀ (pw : String),
      (match st.users.find? (fun (r : UserRow) => r.username == u && r.password == pw) with
        | some r => ((true : Bool), some r.id)
        | none => (false, (none : Option Nat))).1 = true ↔
      ∃ r ∈ st.users, r.username = u ∧ r.password = pw := by
    intro pw
    constructor
    · intro h1
      cases hf : st.users.find? (fun (r : UserRow) => r.username == u && r.password == pw) with
      | none => rw [hf] at h1; simp at h1
      | some r =>
        have hm := List.mem_of_find?_eq_some hf
        have hp := List.find?_some hf
        simp only [Bool.and_eq_true, beq_iff_eq] at hp
        exact ⟨r, hm, hp.1, hp.2⟩
    · rintro ⟨r, hr, h1, h2⟩
      cases hf : st.users.find? (fun (r : UserRow) => r.username == u && r.password == pw) with
      | none =>
        exact absurd
          (by simp [h1, h2] :
            (fun (r : UserRow) => r.username == u && r.password == pw) r = true)
          (by simpa using List.find?_eq_none.mp hf r hr)
      | some r' => rfl
  have keyid : ∀ (pw : String) (i : Nat),
      (match st.users.find? (fun (r : UserRow) => r.username == u && r.password == pw) with
        | some r => ((true : Bool), some r.id)
        | none => (false, (none : Option Nat))) = (true, some i) →
      ∃ r ∈ st.users, r.id = i ∧ r.username = u ∧ r.password = pw := by
    intro pw i h
    cases hf : st.users.find? (fun (r : UserRow) => r.username == u && r.password == pw) with
    | none => rw [hf] at h; simp at h
    | some r =>
      rw [hf] at h
      have hm := List.mem_of_find?_eq_some hf
      have hp := List.find?_some hf
      simp only [Bool.and_eq_true, beq_iff_eq] at hp
      have : r.id = i := by simpa using congrArg Prod.snd h
      exact ⟨r, hm, this, hp.1, hp.2⟩
  have keyfalse : ∀ (pw : String),
      (match st.users.find? (fun (r : UserRow) => r.username == u && r.password == pw) with
        | some r => ((true : Bool), some r.id)
        | none => (false, (none : Option Nat))).1 = false →
      (match st.users.find? (fun (r : UserRow) => r.username == u && r.password == pw) with
        | some r => ((true : Bool), some r.id)
        | none => (false, (none : Option Nat))) = (false, none) := by
    intro pw h
    cases hf : st.users.find? (fun (r : UserRow) => r.username == u && r.password == pw) with
    | none => rfl
    | some r => rw [hf] at h; simp at h
  refine ⟨?_, ?_, ?_, ?_, ?_, ?_⟩
  · simpa [DBNew.verify_user] using key (hash_password p)
  · simpa [DBNew.verify_user] using keyid (hash_password p)
  · simpa [DBNew.verify_user] using keyfalse (hash_password p)
  · simpa [DB.verify_user, dbOk, DbEnv.ok] using key p
  · simpa [DB.verify_user, dbOk, DbEnv.ok] using keyid p
  · simpa [DB.verify_user, dbOk, DbEnv.ok] using keyfalse p

/-- Witness for C2 on a store with no users. -/
theorem verify_user_lookup_spec_witness :
    DB.verify_user dbOk "bob" "pw" emptyStore = (false, none) ∧
    (∃ r ∈ oneUserStore.users, r.id = 1 ∧ r.username = "bob" ∧ r.password = "pw") :=
  ⟨(verify_user_lookup_spec emptyStore "bob" "pw").2.2.2.2.2 (by decide),
   (verify_user_lookup_spec oneUserStore "bob" "pw").2.2.2.2.1 1 (by decide)⟩

/-- C3 counterexample: the input "exercise" is routed to the activity
intent, its duration regex fails to match, and yet a record IS inserted
(duration defaulted to 30) with a success reply - not the no-insert plus
help-string behaviour the claim states for all three logging intents. -/
theorem chat_activity_default_logs_cex :
    searchDuration (pyLower "exercise").data = none ∧
    HA.process_user_input dbOk 0 "exercise" 1 emptyStore =
      ("Logged **30 mins** of activity! Keep moving!",
        { emptyStore with activities := [⟨"1", "Exercise", 30, "Moderate", 150, 0, ""⟩] }) :=
  ⟨by decide, by decide⟩

/-- C3 (amended): on a failed numeric-regex match the blood-pressure and
cholesterol handlers insert nothing and return their fixed help strings,
but the activity handler defaults the duration to 30 minutes and still
inserts a record, answering with its success string. -/
theorem chat_regex_failure_behavior (env : DbEnv) (now : Int) (input : String)
    (uid : Nat) (st : Store) :
    (searchBP (pyLower input).data = none →
      HA.process_blood_pressure env now input uid st =
        ("Could not parse BP. Try: 'My BP is 120/80'", st)) ∧
    (findNums input.data = [] →
      HA.process_cholesterol env now input uid st =
        ("Please provide a number for your cholesterol.", st)) ∧
    (searchDuration (pyLower input).data = none →
      HA.process_activity dbOk now input uid st =
        ("Logged **30 mins** of activity! Keep moving!",
          { st with activities := st.activities ++
              [⟨toString uid, "Exercise", 30, "Moderate", 150, now, ""⟩] })) := by
  refine ⟨?_, ?_, ?_⟩
  · intro h
    simp [HA.process_blood_pressure, h]
  · intro h
    simp [HA.process_cholesterol, h]
  · intro h
    simp [HA.process_activity, h, HA.save_activity, dbOk, DB.intensityMult]
    decide

/-- Witness for C3 at the input "hello", which matches none of the three
numeric patterns. -/
theorem chat_regex_failure_behavior_witness :
    HA.process_blood_pressure dbOk 0 "hello" 1 emptyStore =
      ("Could not parse BP. Try: 'My BP is 120/80'", emptyStore) ∧
    HA.process_cholesterol dbOk 0 "hello" 1 emptyStore =
      ("Please provide a number for your cholesterol.", emptyStore) ∧
    HA.process_activity dbOk 0 "hello" 1 emptyStore =
      ("Logged **30 mins** of activity! Keep moving!",
        { emptyStore with activities := emptyStore.activities ++
            [⟨toString (1 : Nat), "Exercise", 30, "Moderate", 150, 0, ""⟩] }) :=
  ⟨(chat_regex_failure_behavior dbOk 0 "hello" 1 emptyStore).1 (by decide),
   (chat_regex_failure_behavior dbOk 0 "hello" 1 emptyStore).2.1 (by decide),
   (chat_regex_failure_behavior dbOk 0 "hello" 1 emptyStore).2.2 (by decide)⟩

/-- C4: `process_user_input` routes by first-match keyword rules in the
fixed order BP keywords, then activity keywords, then cholesterol keywords,
then status keywords, then the fallback: any input containing a BP keyword
(`bp`, `/` or `pressure`) goes to the blood-pressure handler no matter what
other keywords it contains; without BP keywords an activity keyword selects
the activity handler; without those a cholesterol keyword selects the
cholesterol handler; without those a status keyword selects the status
query; and an input containing no keyword of any of the four groups gets
the fixed fallback reply with the store untouched. -/
theorem process_user_input_first_match (env : DbEnv) (now : Int) (input : String)
    (uid : Nat) (st : Store) :
    (HA.hasBPKeyword (pyLower input) = true →
      HA.process_user_input env now input uid st =
        HA.process_blood_pressure env now input uid st) ∧
    (HA.hasBPKeyword (pyLower input) = false →
      HA.hasAnyWord (pyLower input) HA.activityWords = true →
      HA.process_user_input env now input uid st =
        HA.process_activity env now input uid st) ∧
    (HA.hasBPKeyword (pyLower input) = false →
      HA.hasAnyWord (pyLower input) HA.activityWords = false →
      HA.hasAnyWord (pyLower input) HA.cholWords = true →
      HA.process_user_input env now input uid st =
        HA.process_cholesterol env now input uid st) ∧
    (HA.hasBPKeyword (pyLower input) = false →
      HA.hasAnyWord (pyLower input) HA.activityWords = false →
      HA.hasAnyWord (pyLower input) HA.cholWords = false →
      HA.hasAnyWord (pyLower input) HA.statusWords = true →
      HA.process_user_input env now input uid st =
        (HA.process_status_check env now uid st, st)) ∧
    (HA.hasBPKeyword (pyLower input) = false →
      HA.hasAnyWord (pyLower input) HA.activityWords = false →
      HA.hasAnyWord (pyLower input) HA.cholWords = false →
      HA.hasAnyWord (pyLower input) HA.statusWords = false →
      HA.process_user_input env now input uid st =
        ("I can log your BP (120/80), activities (walked 20 min), or cholesterol. How can I help?", st)) := by
  refine ⟨?_, ?_, ?_, ?_, ?_⟩
  · intro h
    simp [HA.process_user_input, h]
  · intro h1 h2
    simp [HA.process_user_input, h1, h2]
  · intro h1 h2 h3
    simp [HA.process_user_input, h1, h2, h3]
  · intro h1 h2 h3 h4
    simp [HA.process_user_input, h1, h2, h3, h4]
  · intro h1 h2 h3 h4
    simp [HA.process_user_input, h1, h2, h3, h4]

/-- Witness for C4, one input per routing level: "my bp and exercise status"
carries BP, activity and status keywords and goes to the BP handler;
"walked 30 min" to the activity handler; "cholesterol 190" to the
cholesterol handler; "how am i doing" to the status query; "hello there"
carries no keyword and gets the fallback. -/
theorem process_user_input_first_match_witness :
    HA.process_user_input dbOk 0 "my bp and exercise status" 1 emptyStore =
      HA.process_blood_pressure dbOk 0 "my bp and exercise status" 1 emptyStore ∧
    HA.process_user_input dbOk 0 "walked 30 min" 1 emptyStore =
      HA.process_activity dbOk 0 "walked 30 min" 1 emptyStore ∧
    HA.process_user_input dbOk 0 "cholesterol 190" 1 emptyStore =
      HA.process_cholesterol dbOk 0 "cholesterol 190" 1 emptyStore ∧
    HA.process_user_input dbOk 0 "how am i doing" 1 emptyStore =
      (HA.process_status_check dbOk 0 1 emptyStore, emptyStore) ∧
    HA.process_user_input dbOk 0 "hello there" 1 emptyStore =
      ("I can log your BP (120/80), activities (walked 20 min), or cholesterol. How can I help?", emptyStore) :=
  ⟨(process_user_input_first_match dbOk 0 "my bp and exercise status" 1 emptyStore).1 (by decide),
   (process_user_input_first_match dbOk 0 "walked 30 min" 1 emptyStore).2.1
     (by decide) (by decide),
   (process_user_input_first_match dbOk 0 "cholesterol 190" 1 emptyStore).2.2.1
     (by decide) (by decide) (by decide),
   (process_user_input_first_match dbOk 0 "how am i doing" 1 emptyStore).2.2.2.1
     (by decide) (by decide) (by decide) (by decide),
   (process_user_input_first_match dbOk 0 "hello there" 1 emptyStore).2.2.2.2
     (by decide) (by decide) (by decide) (by decide)⟩

/-- C6: every write operation of the database layer only appends rows: in
every environment outcome, every table of the store before the call is an
initial run of the same table after the call, for all six write
operations. -/
theorem db_writes_append_only (env : DbEnv) (uid : Nat) (sys dia : Int)
    (hr : Option Int) (notes : String) (now : Int) (ty : String) (dur : Int)
    (intens : String) (cal : Option Int) (tc t2 t3 t4 : Option Int)
    (role msg : String) (age chol bp target : Int) (prob : ℚ) (u p : String)
    (st : Store) :
    storeExtends st (DB.save_blood_pressure env uid sys dia hr notes now st).2 ∧
    storeExtends st (DB.save_activity env uid ty dur intens cal notes now st).2 ∧
    storeExtends st (DB.save_cholesterol env uid tc t2 t3 t4 notes now st).2 ∧
    storeExtends st (DB.save_chat_message env uid role msg now st).2 ∧
    storeExtends st (DB.log_prediction_to_db env uid age chol bp target prob now st).2 ∧
    storeExtends st (DB.create_user env u p st).2 := by
  unfold DB.save_blood_pressure DB.save_activity DB.save_cholesterol
    DB.save_chat_message DB.log_prediction_to_db DB.create_user
  refine ⟨?_, ?_, ?_, ?_, ?_, ?_⟩ <;> (try split) <;> (try split) <;> (try split) <;>
    dsimp only <;>
    first
      | exact storeExtends_refl _
      | exact storeExtends_users _ _
      | exact storeExtends_bp _ _
      | exact storeExtends_act _ _
      | exact storeExtends_chol _ _
      | exact storeExtends_chat _ _
      | exact storeExtends_pred _ _

/-- C7: each per-user read is determined by the rows whose `user_id` column
equals the string form of the requesting user's id: two stores agreeing on
those rows give identical results for all four reads. -/
theorem reads_depend_only_on_user_rows (env : DbEnv) (uid : Nat) (now : Int)
    (lim : Nat) (st1 st2 : Store)
    (hbp : st1.blood_pressure.filter (fun r => r.user_id == toString uid) =
           st2.blood_pressure.filter (fun r => r.user_id == toString uid))
    (hchat : st1.chat_history.filter (fun r => r.user_id == toString uid) =
             st2.chat_history.filter (fun r => r.user_id == toString uid))
    (hpred : st1.predictions_history.filter (fun r => r.user_id == toString uid) =
             st2.predictions_history.filter (fun r => r.user_id == toString uid)) :
    DB.get_weekly_bp_summary env uid now st1 = DB.get_weekly_bp_summary env uid now st2 ∧
    DB.load_chat_history env uid lim st1 = DB.load_chat_history env uid lim st2 ∧
    DB.get_prediction_history env uid st1 = DB.get_prediction_history env uid st2 ∧
    RA.get_recent_logs env uid st1 = RA.get_recent_logs env uid st2 := by
  refine ⟨?_, ?_, ?_, ?_⟩
  · unfold DB.get_weekly_bp_summary
    rw [filter_and_eq (fun r => r.user_id == toString uid)
          (fun r => decide (now - 7 ≤ r.timestamp)) st1.blood_pressure,
        filter_and_eq (fun r => r.user_id == toString uid)
          (fun r => decide (now - 7 ≤ r.timestamp)) st2.blood_pressure,
        hbp]
  · unfold DB.load_chat_history
    rw [hchat]
  · unfold DB.get_prediction_history
    rw [hpred]
  · unfold RA.get_recent_logs
    rw [hpred]

/-- Witness for C7: a store whose only rows belong to user "2" reads
identically to the empty store for user 1. -/
theorem reads_depend_only_on_user_rows_witness :
    DB.get_weekly_bp_summary dbOk 1 0 foreignStore = DB.get_weekly_bp_summary dbOk 1 0 emptyStore ∧
    DB.load_chat_history dbOk 1 20 foreignStore = DB.load_chat_history dbOk 1 20 emptyStore ∧
    DB.get_prediction_history dbOk 1 foreignStore = DB.get_prediction_history dbOk 1 emptyStore ∧
    RA.get_recent_logs dbOk 1 foreignStore = RA.get_recent_logs dbOk 1 emptyStore :=
  reads_depend_only_on_user_rows dbOk 1 0 20 foreignStore emptyStore
    (by decide) (by decide) (by decide)

/-- C8: when the connection or the SQL statement fails, every enumerated
database helper returns its documented fallback instead of propagating:
the four boolean write helpers return `False`, `save_chat_message` returns
`None`, and the four read helpers return an empty result. -/
theorem db_helpers_return_fallback_on_failure (env : DbEnv)
    (h : env.connect_ok = false ∨ env.exec_ok = false) (uid : Nat)
    (sys dia : Int) (hr : Option Int) (notes : String) (now : Int)
    (ty : String) (dur : Int) (intens : String) (cal : Option Int)
    (tc t2 t3 t4 : Option Int) (role msg : String)
    (age chol bp target : Int) (prob : ℚ) (lim : Nat) (st : Store) :
    DB.save_blood_pressure env uid sys dia hr notes now st = (false, st) ∧
    DB.save_activity env uid ty dur intens cal notes now st = (false, st) ∧
    DB.save_cholesterol env uid tc t2 t3 t4 notes now st = (false, st) ∧
    DB.log_prediction_to_db env uid age chol bp target prob now st = (false, st) ∧
    DB.save_chat_message env uid role msg now st = ((), st) ∧
    DB.get_weekly_bp_summary env uid now st = none ∧
    DB.load_chat_history env uid lim st = [] ∧
    DB.get_prediction_history env uid st = [] ∧
    RA.get_recent_logs env uid st = [] := by
  rcases h with h | h <;>
    simp [DB.save_blood_pressure, DB.save_activity, DB.save_cholesterol,
      DB.save_chat_message, DB.log_prediction_to_db, DB.get_weekly_bp_summary,
      DB.load_chat_history, DB.get_prediction_history, RA.get_recent_logs,
      DbEnv.ok, h]

/-- Witness for C8 with a failing connection. -/
theorem db_helpers_return_fallback_on_failure_witness :
    DB.save_blood_pressure ⟨false, true⟩ 1 120 80 none "" 0 emptyStore = (false, emptyStore) ∧
    DB.save_activity ⟨false, true⟩ 1 "Exercise" 30 "Moderate" none "" 0 emptyStore = (false, emptyStore) ∧
    DB.save_cholesterol ⟨false, true⟩ 1 none none none none "" 0 emptyStore = (false, emptyStore) ∧
    DB.log_prediction_to_db ⟨false, true⟩ 1 50 200 130 1 0 0 emptyStore = (false, emptyStore) ∧
    DB.save_chat_message ⟨false, true⟩ 1 "user" "hi" 0 emptyStore = ((), emptyStore) ∧
    DB.get_weekly_bp_summary ⟨false, true⟩ 1 0 emptyStore = none ∧
    DB.load_chat_history ⟨false, true⟩ 1 20 emptyStore = [] ∧
    DB.get_prediction_history ⟨false, true⟩ 1 emptyStore = [] ∧
    RA.get_recent_logs ⟨false, true⟩ 1 emptyStore = [] :=
  db_helpers_return_fallback_on_failure ⟨false, true⟩ (Or.inl rfl) 1 120 80 none "" 0
    "Exercise" 30 "Moderate" none none none none none "user" "hi" 50 200 130 1 0 20 emptyStore

/-- C9: `create_user` on an existing username returns
`(False, "Username already exists")` leaving the users table unchanged, and
on a fresh username inserts one row and returns `(True, id)` with the new
row's id. -/
theorem create_user_duplicate_and_fresh (st : Store) (u p : String) :
    ((∃ r ∈ st.users, r.username = u) →
      DB.create_user dbOk u p st = ((false, Sum.inr "Username already exists"), st)) ∧
    ((∀ r ∈ st.users, r.username ≠ u) →
      DB.create_user dbOk u p st =
        ((true, Sum.inl (DB.nextUserId st)),
         { st with users := st.users ++ [⟨DB.nextUserId st, u, p⟩] })) := by
  constructor
  · rintro ⟨r, hr, hname⟩
    have hany : st.users.any (fun r => r.username == u) = true :=
      List.any_eq_true.mpr ⟨r, hr, by simp [hname]⟩
    simp [DB.create_user, dbOk, hany]
  · intro hfresh
    have hany : st.users.any (fun r => r.username == u) = false := by
      rw [Bool.eq_false_iff]
      intro hc
      obtain ⟨r, hr, hb⟩ := List.any_eq_true.mp hc
      exact hfresh r hr (by simpa using hb)
    simp [DB.create_user, dbOk, hany]

/-- Witness for C9: on a store holding user "bob", creating "bob" again is
refused unchanged and creating "carol" succeeds with the next id. -/
theorem create_user_duplicate_and_fresh_witness :
    DB.create_user dbOk "bob" "secret" oneUserStore =
      ((false, Sum.inr "Username already exists"), oneUserStore) ∧
    DB.create_user dbOk "carol" "secret" oneUserStore =
      ((true, Sum.inl (DB.nextUserId oneUserStore)),
       { oneUserStore with users := oneUserStore.users ++ [⟨DB.nextUserId oneUserStore, "carol", "secret"⟩] }) :=
  ⟨(create_user_duplicate_and_fresh oneUserStore "bob" "secret").1 (by decide),
   (create_user_duplicate_and_fresh oneUserStore "carol" "secret").2 (by decide)⟩

/-- C10: `save_activity` with `calories = None` stores
`duration * 3 / 5 / 8` for intensity Light / Moderate / Vigorous,
`duration * 5` for any other intensity string, and stores a supplied
calories value unchanged; the Health-Assistant copy of `save_activity`
behaves identically. -/
theorem save_activity_calories_rule (uid : Nat) (ty : String) (dur : Int)
    (notes : String) (now : Int) (st : Store) :
    ((DB.save_activity dbOk uid ty dur "Light" none notes now st).2.activities =
      st.activities ++ [⟨toString uid, ty, dur, "Light", dur * 3, now, notes⟩]) ∧
    ((DB.save_activity dbOk uid ty dur "Moderate" none notes now st).2.activities =
      st.activities ++ [⟨toString uid, ty, dur, "Moderate", dur * 5, now, notes⟩]) ∧
    ((DB.save_activity dbOk uid ty dur "Vigorous" none notes now st).2.activities =
      st.activities ++ [⟨toString uid, ty, dur, "Vigorous", dur * 8, now, notes⟩]) ∧
    (∀ intens, intens ≠ "Light" → intens ≠ "Moderate" → intens ≠ "Vigorous" →
      (DB.save_activity dbOk uid ty dur intens none notes now st).2.activities =
        st.activities ++ [⟨toString uid, ty, dur, intens, dur * 5, now, notes⟩]) ∧
    (∀ intens (c : Int),
      (DB.save_activity dbOk uid ty dur intens (some c) notes now st).2.activities =
        st.activities ++ [⟨toString uid, ty, dur, intens, c, now, notes⟩]) ∧
    (∀ (env : DbEnv) intens (cal : Option Int),
      HA.save_activity env uid ty dur intens cal notes now st =
        DB.save_activity env uid ty dur intens cal notes now st) := by
  refine ⟨?_, ?_, ?_, ?_, ?_, ?_⟩
  · simp [DB.save_activity, dbOk, DB.intensityMult]
  · simp [DB.save_activity, dbOk, DB.intensityMult]
  · simp [DB.save_activity, dbOk, DB.intensityMult]
  · intro intens h1 h2 h3
    simp [DB.save_activity, dbOk, DB.intensityMult, h1, h2, h3]
  · intro intens c
    simp [DB.save_activity, dbOk]
  · intro env intens cal
    rfl

/-- Witness for C10 at the unlisted intensity "Yoga". -/
theorem save_activity_calories_rule_witness :
    (DB.save_activity dbOk 1 "Exercise" 10 "Yoga" none "" 0 emptyStore).2.activities =
      emptyStore.activities ++ [⟨toString (1 : Nat), "Exercise", 10, "Yoga", 10 * 5, 0, ""⟩] :=
  (save_activity_calories_rule 1 "Exercise" 10 "" 0 emptyStore).2.2.2.1 "Yoga"
    (by decide) (by decide) (by decide)

end HeartDisease
